import Mathlib

/-!
Verification development for the trackerZ phase-transition engine, audit
timeline and migration runner.  Each definition is a shallow embedding of a
function of the source tree (file and symbol named in its doc comment).
Timestamps are modelled as natural numbers (seconds); SQLite text timestamps
are treated as already parsed.
-/

namespace TrackerZ

/-- Phases, from the `Phase` literal type in src/services/phase_service.py. -/
inductive Phase where
  | Open
  | InProgress
  | InHiatus
  | Resolved
  | Closed
deriving DecidableEq, Fintype

/-- Rendering of a phase as the string used by the python code. -/
def phaseName : Phase → String
  | .Open => "Open"
  | .InProgress => "In Progress"
  | .InHiatus => "In Hiatus"
  | .Resolved => "Resolved"
  | .Closed => "Closed"

/-- `PhaseService._ALLOWED` (src/services/phase_service.py): the finite-state
graph shared by tasks and subtasks, as a function from phase to the list of
allowed targets. -/
def ALLOWED : Phase → List Phase
  | .Open => [.InProgress]
  | .InProgress => [.InHiatus, .Resolved]
  | .InHiatus => [.InProgress]
  | .Resolved => [.Closed]
  | .Closed => []

/-- `PhaseService.can_change` (src/services/phase_service.py): returns the
pair of the validity flag and the message string. -/
def can_change (current target : Phase) : Bool × String :=
  if current = target then
    (false, "Target phase equals current phase.")
  else if target ∈ ALLOWED current then
    (true, "Valid phase change.")
  else
    (false, "Invalid phase change: " ++ phaseName current ++ " → " ++ phaseName target ++ ".")

/-- The transition table as written in the specification (section 3). -/
def specEdges : List (Phase × Phase) :=
  [(.Open, .InProgress), (.InProgress, .InHiatus), (.InProgress, .Resolved),
   (.InHiatus, .InProgress), (.Resolved, .Closed)]

/-- C4: for every pair of phases, `can_change` accepts exactly the pairs that
are distinct and listed as edges of the specification table; in particular
nothing leaves Closed, and Open → Resolved is rejected. -/
theorem c4_isAllowed_matches_table :
    (∀ f t : Phase, (can_change f t).1 = true ↔ (t ≠ f ∧ (f, t) ∈ specEdges))
    ∧ (∀ p : Phase, (can_change .Closed p).1 = false)
    ∧ (can_change .Open .Resolved).1 = false := by
  decide

/-! ### PhaseService.apply (src/services/phase_service.py)

The service talks to an abstract `PhaseRepository` protocol whose calls return
booleans.  The state a repository exposes to the service is a task table
(id to phase and updated_at) and a history list; the outcomes of the two
mutating repository calls are passed in as the booleans `setOk` / `logOk`,
matching the protocol in which `set_task_phase` and `add_task_update` each
report success as a bool.  A failed call leaves the state unchanged. -/

/-- Result codes of `PhaseChangeResult.code`. -/
inductive RCode where
  | applied
  | no_change
  | invalid_transition
  | entity_not_found
  | repo_error
deriving DecidableEq

/-- `PhaseChangeResult` (src/services/phase_service.py). -/
structure PCResult where
  ok : Bool
  code : RCode
  message : String
deriving DecidableEq

/-- One row of the tasks table as seen through the service protocol. -/
structure TaskRow where
  phase : Phase
  updated_at : Nat
deriving DecidableEq

/-- One history row appended through `PhaseRepository.add_task_update`. -/
structure TaskUpdate where
  task_id : Nat
  phase_from : Phase
  phase_to : Phase
  note : Option String
  actor : Option Nat
  created_at : Nat
deriving DecidableEq

/-- Repository state visible through the `PhaseRepository` protocol. -/
structure RepoState where
  tasks : List (Nat × TaskRow)
  task_updates : List TaskUpdate
deriving DecidableEq

/-- `PhaseRepository.get_task_phase`: current phase of a task, if present. -/
def getTaskPhase (st : RepoState) (tid : Nat) : Option Phase :=
  (st.tasks.lookup tid).map TaskRow.phase

/-- Effect of a successful `PhaseRepository.set_task_phase`: the row's phase
and updated_at are written. -/
def setTaskRow (st : RepoState) (tid : Nat) (p : Phase) (now : Nat) : RepoState :=
  { st with tasks := st.tasks.map (fun e => if e.1 = tid then (e.1, ⟨p, now⟩) else e) }

/-- `PhaseService.apply` (src/services/phase_service.py, task kind; the
subtask branch is symmetric).  Validates against the FSM, then calls
`set_task_phase` and `add_task_update` as two separate repository calls;
`setOk` and `logOk` are the boolean outcomes of those calls. -/
def serviceApply (st : RepoState) (tid : Nat) (target : Phase) (note : Option String)
    (userId : Option Nat) (now : Nat) (setOk logOk : Bool) : PCResult × RepoState :=
  match getTaskPhase st tid with
  | none => (⟨false, .entity_not_found, "Task not found."⟩, st)
  | some actual =>
    if target = actual then
      (⟨false, .no_change, "Phase is already set to the requested value."⟩, st)
    else
      let cc := can_change actual target
      if cc.1 = false then
        (⟨false, .invalid_transition, cc.2⟩, st)
      else
        if setOk then
          let st1 := setTaskRow st tid target now
          if logOk then
            let st2 := { st1 with task_updates :=
              st1.task_updates ++ [⟨tid, actual, target, note, userId, now⟩] }
            (⟨true, .applied, "Phase updated."⟩, st2)
          else
            (⟨false, .repo_error, "Phase updated, but failed to write history."⟩, st1)
        else
          (⟨false, .repo_error, "Failed to update phase in repository."⟩, st)

/-- Concrete repository state: task 1 in phase Open, empty history. -/
def st0 : RepoState := ⟨[(1, ⟨.Open, 0⟩)], []⟩

/-- C1: evaluation of `PhaseService.apply` at the failing input.  When the
phase write succeeds but the history write fails, the call returns
`repo_error` while the task's phase has durably changed and no history record
exists — the mutation and the audit write do not commit or roll back
together.  (For contrast, the second conjunct shows the all-success run,
which does append exactly one record.) -/
theorem c1_phase_persists_without_audit :
    (let r := serviceApply st0 1 .InProgress none none 5 true false
     r.1.ok = false ∧ r.1.code = .repo_error
       ∧ getTaskPhase r.2 1 = some .InProgress
       ∧ r.2.task_updates = [])
    ∧ (let g := serviceApply st0 1 .InProgress none none 5 true true
       g.1.code = .applied ∧ getTaskPhase g.2 1 = some .InProgress
         ∧ g.2.task_updates = [⟨1, .Open, .InProgress, none, none, 5⟩]) := by
  decide

/-- C2 counterexample: with a note supplied and the target equal to the
current phase, `PhaseService.apply` returns `ok = false` (the outcome is not
flagged as a success) and appends no note-only history record: the state is
unchanged. -/
theorem c2_note_ignored_and_not_ok :
    let r := serviceApply st0 1 .Open (some "a note") none 5 true true
    r.1.ok = false ∧ r.1.code = .no_change ∧ r.2 = st0 := by
  decide

/-! ### SQLiteTaskRepository (src/repositories/sqlite_task_repository.py)

Schema Rev 0.6.8: tasks carry `phase_id`/`priority_id`; `task_updates` rows
carry non-null old/new phase and priority ids plus a `reason` string.
`datetime('now')` is passed in as the `now : Nat` argument. -/

/-- One row of the `tasks` table (Rev 0.6.8 columns used by the repo). -/
structure TRow where
  project_id : Nat
  name : String
  description : String
  phase_id : Nat
  priority_id : Nat
  created_at : Nat
  updated_at : Nat
deriving DecidableEq

/-- One row of the `task_updates` table (Rev 0.6.8). -/
structure URow where
  task_id : Nat
  updated_at : Nat
  note : Option String
  reason : String
  old_phase_id : Nat
  new_phase_id : Nat
  old_priority_id : Nat
  new_priority_id : Nat
deriving DecidableEq

/-- Database state as touched by `SQLiteTaskRepository`. -/
structure TaskDB where
  tasks : List (Nat × TRow)
  task_updates : List URow
  next_id : Nat
deriving DecidableEq

/-- Python truthiness of an optional string (`note or ...`). -/
def truthyS (s : Option String) : Bool :=
  match s with
  | some t => t ≠ ""
  | none => false

/-- Python `reason or d` for an optional reason string. -/
def orD (reason : Option String) (d : String) : String :=
  match reason with
  | some r => if r = "" then d else r
  | none => d

/-- `SQLiteTaskRepository.create_task`: inserts the task row, then mirrors a
create entry into `task_updates` with the literal values 1 and 2 as
old_phase_id and old_priority_id (the SQL writes `'create', 1, ?, 2, ?`).
Returns the new task id together with the new state. -/
def create_task (db : TaskDB) (project_id : Nat) (nm : String) (description : Option String)
    (phase_id priority_id : Nat) (note_on_create : Option String) (now : Nat) :
    Nat × TaskDB :=
  let tid := db.next_id
  let row : TRow := ⟨project_id, nm, description.getD "", phase_id, priority_id, now, now⟩
  let urow : URow := ⟨tid, now, note_on_create, "create", 1, phase_id, 2, priority_id⟩
  (tid, ⟨db.tasks ++ [(tid, row)], db.task_updates ++ [urow], tid + 1⟩)

/-- `SQLiteTaskRepository.change_task_phase`: when old equals new, a record
(with old = new on both pairs) is inserted exactly when a note or reason is
truthy, and True is returned; otherwise the task's phase_id is updated (the
row's updated_at is not touched by this SQL) and one record with
`reason or 'phase_change'` is inserted. -/
def change_task_phase (db : TaskDB) (tid new_phase_id : Nat)
    (reason note : Option String) (now : Nat) : Bool × TaskDB :=
  match db.tasks.lookup tid with
  | none => (false, db)
  | some row =>
    let old_phase_id := row.phase_id
    let priority_id := row.priority_id
    if old_phase_id = new_phase_id then
      if truthyS note || truthyS reason then
        let urow : URow := ⟨tid, now, note, orD reason "update",
          old_phase_id, new_phase_id, priority_id, priority_id⟩
        (true, { db with task_updates := db.task_updates ++ [urow] })
      else
        (true, db)
    else
      let upd := fun (e : Nat × TRow) =>
        if e.1 = tid then (e.1, { e.2 with phase_id := new_phase_id }) else e
      let db1 := { db with tasks := db.tasks.map upd }
      let urow : URow := ⟨tid, now, note, orD reason "phase_change",
        old_phase_id, new_phase_id, priority_id, priority_id⟩
      (true, { db1 with task_updates := db1.task_updates ++ [urow] })

/-- `SQLiteTaskRepository.set_task_priority`: no graph constraint; `reason`
is a plain string defaulting to "priority_change" at the call site.  When old
equals new, the task row is untouched but a record is still inserted whenever
the note or the reason is truthy; otherwise priority_id is updated and one
record is inserted, with phase_id carried equal on both phase columns. -/
def set_task_priority (db : TaskDB) (tid new_priority_id : Nat)
    (reason : String) (note : Option String) (now : Nat) : Bool × TaskDB :=
  match db.tasks.lookup tid with
  | none => (false, db)
  | some row =>
    let phase_id := row.phase_id
    let old_priority_id := row.priority_id
    if old_priority_id = new_priority_id then
      if truthyS note || reason ≠ "" then
        let urow : URow := ⟨tid, now, note, reason,
          phase_id, phase_id, old_priority_id, new_priority_id⟩
        (true, { db with task_updates := db.task_updates ++ [urow] })
      else
        (true, db)
    else
      let upd := fun (e : Nat × TRow) =>
        if e.1 = tid then (e.1, { e.2 with priority_id := new_priority_id }) else e
      let db1 := { db with tasks := db.tasks.map upd }
      let urow : URow := ⟨tid, now, note, reason,
        phase_id, phase_id, old_priority_id, new_priority_id⟩
      (true, { db1 with task_updates := db1.task_updates ++ [urow] })

/-- C10: the mirrored create record always carries old_phase_id = 1 and
old_priority_id = 2, whatever phase and priority the task was actually
created with, while the new columns carry the supplied values. -/
theorem c10_create_mirror_fixed_olds (db : TaskDB) (pid : Nat) (nm : String)
    (description : Option String) (phase_id priority_id : Nat)
    (note : Option String) (now : Nat) :
    let r := create_task db pid nm description phase_id priority_id note now
    r.2.task_updates = db.task_updates ++
      [⟨r.1, now, note, "create", 1, phase_id, 2, priority_id⟩] := rfl

/-- Concrete task database: task 1 in phase 1 with priority 2, no history. -/
def tdb0 : TaskDB := ⟨[(1, ⟨1, "T", "", 1, 2, 0, 0⟩)], [], 2⟩

/-- C9 counterexample: setting the priority to its current value with the
default reason "priority_change" and no note still inserts a history record,
where the claim says no HistoryRecord is written. -/
theorem c9_equal_priority_still_logs :
    let r := set_task_priority tdb0 1 2 "priority_change" none 7
    r.1 = true ∧ r.2.tasks = tdb0.tasks
      ∧ r.2.task_updates = [⟨1, 7, none, "priority_change", 1, 1, 2, 2⟩] := by
  decide

/-! ### SQLitePhaseRepository.set_task_phase (src/repositories/sqlite_phase_repository.py)

The repository performs the phase update and the history insert inside one
BEGIN/COMMIT, rolling back on any error.  DB triggers are expected to enforce
transition legality; their behaviour on the UPDATE is an input here: the
trigger can let the update through, block it silently (zero rows affected),
or raise an IntegrityError carrying an optional message.  The history table
is modelled with the canonical columns all present (the column-alias probing
always resolves them in that schema). -/

/-- What the DB trigger does to the UPDATE statement. -/
inductive TrigBehavior where
  | allow
  | blockSilently
  | raiseIntegrityError (msg : Option String)
deriving DecidableEq

/-- `PhaseChangeResult` of sqlite_phase_repository.py (distinct from the
service's result type): ok flag, reason string, old/new phase ids. -/
structure SPRResult where
  ok : Bool
  reason : Option String
  old_phase_id : Option Nat
  new_phase_id : Option Nat
deriving DecidableEq

/-- A history row written by the repository (task_id, picked timestamp
column, old/new phase ids, note). -/
structure HRow where
  task_id : Nat
  ts : Nat
  old_phase_id : Nat
  new_phase_id : Nat
  note : Option String
deriving DecidableEq

/-- State touched by `SQLitePhaseRepository`: tasks (id to phase_id) and the
task_updates history rows. -/
structure PhaseDB where
  tasks : List (Nat × Nat)
  task_updates : List HRow
deriving DecidableEq

/-- `SQLitePhaseRepository.set_task_phase`: pre-reads the row, detects
no_change/not_found, then updates and appends history in one transaction;
a silent trigger block maps to reason "invalid_transition", while an
IntegrityError surfaces the trigger's message when present, falling back to
"invalid_transition" only when the error carries no message
(`msg = (e.args[0] if e.args else "") or "invalid_transition"`). -/
def spr_set_task_phase (db : PhaseDB) (tid phase_id : Nat) (trig : TrigBehavior)
    (now : Nat) : SPRResult × PhaseDB :=
  match db.tasks.lookup tid with
  | none => (⟨false, some "not_found", none, none⟩, db)
  | some old_pid =>
    if old_pid = phase_id then
      (⟨false, some "no_change", some old_pid, some phase_id⟩, db)
    else
      match trig with
      | .allow =>
        let newTasks := db.tasks.map (fun e => if e.1 = tid then (e.1, phase_id) else e)
        let newHist := db.task_updates ++ [⟨tid, now, old_pid, phase_id, none⟩]
        (⟨true, none, some old_pid, some phase_id⟩, ⟨newTasks, newHist⟩)
      | .blockSilently =>
        (⟨false, some "invalid_transition", some old_pid, some phase_id⟩, db)
      | .raiseIntegrityError msg =>
        let m :=
          match msg with
          | some s => if s = "" then "invalid_transition" else s
          | none => "invalid_transition"
        (⟨false, some m, some old_pid, some phase_id⟩, db)

/-- Concrete phase-repository state: task 1 in phase 4 (Resolved). -/
def pdb0 : PhaseDB := ⟨[(1, 4)], []⟩

/-- C3 counterexample: the service pre-check rejects Resolved → Open as
`invalid_transition`, but the repository backstop, when the DB trigger raises
with a message, surfaces that message string as the reason instead of the
same "invalid_transition" error (state is still unmutated). -/
theorem c3_backstop_surfaces_trigger_message :
    ((serviceApply ⟨[(1, ⟨.Resolved, 0⟩)], []⟩ 1 .Open none none 5 true true).1.code
        = .invalid_transition)
    ∧ (let r := spr_set_task_phase pdb0 1 1 (.raiseIntegrityError (some "blocked by trigger")) 5
       r.1.ok = false ∧ r.1.reason = some "blocked by trigger"
         ∧ r.1.reason ≠ some "invalid_transition" ∧ r.2 = pdb0) := by
  decide

/-- C2 amended: with target equal to the current phase, `PhaseService.apply`
returns the distinguished code no_change with ok = false, mutates nothing and
ignores any supplied note; the repository-level `change_task_phase` returns
True, leaves the tasks table unchanged, and appends one record carrying the
current phase as both old and new (reason defaulting to "update") exactly
when the note or the reason is truthy. -/
theorem c2_amended_no_change_semantics (st : RepoState) (tid : Nat) (p : Phase)
    (note : Option String) (uid : Option Nat) (now : Nat) (sOk lOk : Bool)
    (h : getTaskPhase st tid = some p)
    (db : TaskDB) (tid2 : Nat) (row : TRow) (reason note2 : Option String) (now2 : Nat)
    (h2 : db.tasks.lookup tid2 = some row) :
    serviceApply st tid p note uid now sOk lOk =
      (⟨false, .no_change, "Phase is already set to the requested value."⟩, st)
    ∧ (let r := change_task_phase db tid2 row.phase_id reason note2 now2
       r.1 = true ∧ r.2.tasks = db.tasks
         ∧ r.2.task_updates = db.task_updates ++
             (if truthyS note2 || truthyS reason then
               [⟨tid2, now2, note2, orD reason "update", row.phase_id, row.phase_id,
                 row.priority_id, row.priority_id⟩]
              else [])) := by
  constructor
  · simp [serviceApply, h]
  · by_cases ht : truthyS note2 = true ∨ truthyS reason = true
    · simp [change_task_phase, h2, ht]
    · simp [change_task_phase, h2, ht]

/-- Witness for the C2 amended theorem at concrete inputs. -/
theorem c2_amended_no_change_semantics_witness :
    serviceApply st0 1 .Open (some "n") none 5 true true =
      (⟨false, .no_change, "Phase is already set to the requested value."⟩, st0)
    ∧ (let r := change_task_phase tdb0 1 (1 : Nat) (some "phase_change") (some "n") 7
       r.1 = true ∧ r.2.tasks = tdb0.tasks
         ∧ r.2.task_updates = tdb0.task_updates ++
             (if truthyS (some "n") || truthyS (some "phase_change") then
               [⟨1, 7, some "n", orD (some "phase_change") "update", 1, 1, 2, 2⟩]
              else [])) :=
  c2_amended_no_change_semantics st0 1 .Open (some "n") none 5 true true (by decide)
    tdb0 1 ⟨1, "T", "", 1, 2, 0, 0⟩ (some "phase_change") (some "n") 7 (by decide)

/-- C3 amended: the service pre-check returns `invalid_transition` with zero
state mutation for any disallowed distinct target; the repository backstop
rolls back all mutation, and its rejection carries reason
"invalid_transition" when the trigger blocks silently or raises without a
message, but carries the trigger's own message string when one is present. -/
theorem c3_amended_invalid_transition_semantics (st : RepoState) (tid : Nat)
    (cur target : Phase) (note : Option String) (uid : Option Nat) (now : Nat)
    (sOk lOk : Bool) (h : getTaskPhase st tid = some cur) (hne : target ≠ cur)
    (hdis : (can_change cur target).1 = false)
    (db : PhaseDB) (tid2 old pid2 : Nat) (msg : Option String) (now2 : Nat)
    (h2 : db.tasks.lookup tid2 = some old) (hne2 : old ≠ pid2) :
    serviceApply st tid target note uid now sOk lOk =
      (⟨false, .invalid_transition, (can_change cur target).2⟩, st)
    ∧ spr_set_task_phase db tid2 pid2 .blockSilently now2 =
        (⟨false, some "invalid_transition", some old, some pid2⟩, db)
    ∧ spr_set_task_phase db tid2 pid2 (.raiseIntegrityError msg) now2 =
        (⟨false,
          some (match msg with
                | some s => if s = "" then "invalid_transition" else s
                | none => "invalid_transition"),
          some old, some pid2⟩, db) := by
  refine ⟨?_, ?_, ?_⟩
  · simp [serviceApply, h, hne, hdis]
  · simp [spr_set_task_phase, h2, hne2]
  · simp [spr_set_task_phase, h2, hne2]

/-- Witness for the C3 amended theorem at concrete inputs. -/
theorem c3_amended_invalid_transition_semantics_witness :
    serviceApply ⟨[(1, ⟨.Resolved, 0⟩)], []⟩ 1 .Open none none 5 true true =
      (⟨false, .invalid_transition, (can_change .Resolved .Open).2⟩,
        ⟨[(1, ⟨.Resolved, 0⟩)], []⟩)
    ∧ spr_set_task_phase pdb0 1 1 .blockSilently 5 =
        (⟨false, some "invalid_transition", some 4, some 1⟩, pdb0)
    ∧ spr_set_task_phase pdb0 1 1 (.raiseIntegrityError (some "blocked by trigger")) 5 =
        (⟨false,
          some (match (some "blocked by trigger" : Option String) with
                | some s => if s = "" then "invalid_transition" else s
                | none => "invalid_transition"),
          some 4, some 1⟩, pdb0) :=
  c3_amended_invalid_transition_semantics ⟨[(1, ⟨.Resolved, 0⟩)], []⟩ 1 .Resolved .Open
    none none 5 true true (by decide) (by decide) (by decide)
    pdb0 1 4 1 (some "blocked by trigger") 5 (by decide) (by decide)

/-- C9 amended: `set_task_priority` imposes no transition constraint — any
new priority is written over any old one — and logs one record with the phase
carried equal on both phase columns; when the target equals the current
priority the task row is untouched, but a record with old = new priority is
still appended whenever the note or the (default non-empty) reason is truthy,
and is skipped only when both are empty. -/
theorem c9_amended_priority_semantics (db : TaskDB) (tid newp : Nat) (row : TRow)
    (reason : String) (note : Option String) (now : Nat)
    (h : db.tasks.lookup tid = some row) :
    (row.priority_id = newp →
      set_task_priority db tid newp reason note now =
        (true,
          if truthyS note || reason ≠ "" then
            { db with task_updates := db.task_updates ++
                [⟨tid, now, note, reason, row.phase_id, row.phase_id,
                  row.priority_id, newp⟩] }
          else db))
    ∧ (row.priority_id ≠ newp →
      set_task_priority db tid newp reason note now =
        (true,
          ⟨db.tasks.map (fun e =>
              if e.1 = tid then (e.1, { e.2 with priority_id := newp }) else e),
            db.task_updates ++
              [⟨tid, now, note, reason, row.phase_id, row.phase_id,
                row.priority_id, newp⟩],
            db.next_id⟩)) := by
  constructor
  · intro he
    by_cases hc : truthyS note = true ∨ ¬reason = ""
    · simp [set_task_priority, h, he, hc]
    · simp [set_task_priority, h, he, hc]
  · intro hne
    simp [set_task_priority, h, hne]

/-- Witness for the C9 amended theorem at concrete inputs: the equal-priority
call (2 → 2) and a real change (2 → 3). -/
theorem c9_amended_priority_semantics_witness :
    set_task_priority tdb0 1 2 "priority_change" none 7 =
      (true,
        if truthyS none || "priority_change" ≠ "" then
          { tdb0 with task_updates := tdb0.task_updates ++
              [⟨1, 7, none, "priority_change", 1, 1, 2, 2⟩] }
        else tdb0)
    ∧ set_task_priority tdb0 1 3 "priority_change" none 7 =
      (true,
        ⟨tdb0.tasks.map (fun e =>
            if e.1 = 1 then (e.1, { e.2 with priority_id := 3 }) else e),
          tdb0.task_updates ++ [⟨1, 7, none, "priority_change", 1, 1, 2, 3⟩],
          tdb0.next_id⟩) :=
  ⟨(c9_amended_priority_semantics tdb0 1 2 ⟨1, "T", "", 1, 2, 0, 0⟩
      "priority_change" none 7 (by decide)).1 rfl,
   (c9_amended_priority_semantics tdb0 1 3 ⟨1, "T", "", 1, 2, 0, 0⟩
      "priority_change" none 7 (by decide)).2 (by decide)⟩

/-! ### Migration runner (src/tools/migrate.py)

`connect` sets `conn.isolation_level = None` (CPython sqlite3 legacy
transaction control, i.e. autocommit).  Under that control,
`conn.executescript` first issues an implicit COMMIT of any pending
transaction and then runs the script with each statement committing on its
own, leaving no transaction active.  `exec_script` therefore behaves as:
`BEGIN` opens an explicit transaction, `executescript` implicitly commits it
and runs (and durably commits) the script's statements, and the trailing
`conn.execute("COMMIT;")` in the else branch raises
OperationalError "cannot commit - no transaction is active" — on every call,
uncaught, since the except clause guards only `executescript`.  This
behaviour is reproduced empirically against CPython's sqlite3.  Script
statements are assumed to execute without errors of their own; their effect
is represented as data (`ScriptAction`). -/

/-- A migration script: filename and current text content. -/
structure Script where
  name : String
  content : String
deriving DecidableEq

/-- One row of the `schema_migrations` ledger. -/
structure MigRecord where
  filename : String
  sha256 : String
  applied_at : Nat
deriving DecidableEq

/-- An exception raised by the sqlite3 layer. -/
inductive PyError where
  | operationalError (msg : String)
deriving DecidableEq

/-- The durable database state together with the connection's transaction
flag: whether an explicit transaction is open, whether `schema_migrations`
exists, which scripts' statements have been committed, and the ledger rows. -/
structure MigConn where
  inTransaction : Bool
  ledgerTable : Bool
  effects : List String
  ledger : List MigRecord
deriving DecidableEq

/-- What a script's statements do when executed: the
`ensure_migrations_table` script creates the ledger table; a migration
script commits its effects, tagged by its filename. -/
inductive ScriptAction where
  | createLedgerTable
  | migration (name : String)
deriving DecidableEq

/-- Executing a script's statements (in per-statement autocommit, so their
effect is durable as soon as they run). -/
def runScriptStatements (c : MigConn) : ScriptAction → MigConn
  | .createLedgerTable => { c with ledgerTable := true }
  | .migration n => { c with effects := c.effects ++ [n] }

/-- `conn.execute("BEGIN;")`: opens an explicit transaction. -/
def sqlBegin (c : MigConn) : MigConn := { c with inTransaction := true }

/-- `conn.execute("COMMIT;")` under autocommit control: commits the open
transaction, or raises OperationalError when none is active. -/
def sqlCommit (c : MigConn) : MigConn × Option PyError :=
  if c.inTransaction then ({ c with inTransaction := false }, none)
  else (c, some (.operationalError "cannot commit - no transaction is active"))

/-- `conn.executescript(sql_text)` under legacy transaction control: an
implicit COMMIT of the pending transaction first, then the statements run in
per-statement autocommit, leaving no transaction active. -/
def executescript (c : MigConn) (a : ScriptAction) : MigConn :=
  runScriptStatements { c with inTransaction := false } a

/-- `exec_script` (src/tools/migrate.py): BEGIN; executescript; then COMMIT
in the else branch.  The exception from that COMMIT propagates with the
script's statements already durably committed. -/
def exec_script (c : MigConn) (a : ScriptAction) : MigConn × Option PyError :=
  sqlCommit (executescript (sqlBegin c) a)

/-- `ensure_migrations_table` (src/tools/migrate.py): `exec_script` over the
CREATE TABLE IF NOT EXISTS script. -/
def ensure_migrations_table (c : MigConn) : MigConn × Option PyError :=
  exec_script c .createLedgerTable

/-- A drift warning printed by the `apply_migrations` loop (filename,
recorded hash, current hash). -/
structure MigWarning where
  filename : String
  recorded : String
  current : String
deriving DecidableEq

/-- Whether a script is pending relative to the snapshot of applied rows. -/
def isPending (applied : List MigRecord) (s : Script) : Bool :=
  (applied.find? (fun r => r.filename = s.name)).isNone

/-- The `for path in migrations` loop of `apply_migrations`, with exception
propagation: recorded scripts are skipped (warning first on a hash mismatch,
printed as encountered); a pending script goes through `exec_script`, whose
exception propagates with that script's statements committed and before the
ledger INSERT; were `exec_script` to return, the INSERT would autocommit and
the loop continue. -/
def applyMigLoop (hash : String → String) (applied : List MigRecord) (now : Nat)
    (c : MigConn) (appliedNow : List String) (warns : List MigWarning) :
    List Script → MigConn × List MigWarning × Except PyError (List String)
  | [] => (c, warns, .ok appliedNow)
  | s :: rest =>
    match applied.find? (fun r => r.filename = s.name) with
    | some r =>
      if r.sha256 ≠ hash s.content then
        applyMigLoop hash applied now c appliedNow
          (warns ++ [⟨s.name, r.sha256, hash s.content⟩]) rest
      else
        applyMigLoop hash applied now c appliedNow warns rest
    | none =>
      match exec_script c (.migration s.name) with
      | (c1, some e) => (c1, warns, .error e)
      | (c1, none) =>
        let c2 := { c1 with ledger := c1.ledger ++ [⟨s.name, hash s.content, now⟩] }
        applyMigLoop hash applied now c2 (appliedNow ++ [s.name]) warns rest

/-- `apply_migrations` (src/tools/migrate.py, with `stop_on_changed_hash`
False as at both call sites): calls `ensure_migrations_table` first; its
exception propagates immediately — before the ledger snapshot, any drift
check, any migration execution, or any ledger insert.  Returns the
connection state at exit, the warnings printed, and either the propagated
error or the applied filenames. -/
def apply_migrations (hash : String → String) (c : MigConn) (files : List Script)
    (now : Nat) : MigConn × List MigWarning × Except PyError (List String) :=
  match ensure_migrations_table c with
  | (c1, some e) => (c1, [], .error e)
  | (c1, none) => applyMigLoop hash c1.ledger now c1 [] [] files

/-- The report a completed `cmd_status` run would print: the applied ledger
rows and the pending filenames.  Its listing code performs no hash
comparison. -/
structure StatusReport where
  applied : List MigRecord
  pending : List String
deriving DecidableEq

/-- `cmd_status` (src/tools/migrate.py): calls `ensure_migrations_table`
first; its exception propagates (the finally clause only closes the
connection), so nothing is printed. -/
def cmd_status (c : MigConn) (files : List Script) :
    MigConn × Except PyError StatusReport :=
  match ensure_migrations_table c with
  | (c1, some e) => (c1, .error e)
  | (c1, none) =>
    (c1, .ok ⟨c1.ledger, (files.filter (isPending c1.ledger)).map Script.name⟩)

/-- `exec_script` raises on every call: `executescript` has already
implicitly committed the explicit BEGIN and left autocommit active, so the
trailing COMMIT finds no active transaction; the script's statements are
durably committed nonetheless. -/
theorem exec_script_always_raises (c : MigConn) (a : ScriptAction) :
    exec_script c a =
      (runScriptStatements { c with inTransaction := false } a,
        some (.operationalError "cannot commit - no transaction is active")) := by
  cases a <;> simp [exec_script, sqlBegin, executescript, sqlCommit, runScriptStatements]

/-- C5: every invocation of `apply_migrations` raises OperationalError
inside `ensure_migrations_table` — before reading the ledger, executing any
migration script, or writing any ledger row.  The run ends with only the
CREATE TABLE effect committed, the ledger unchanged and no script applied,
so the claimed execute-and-record-in-one-transaction never takes place. -/
theorem c5_apply_raises_before_recording (hash : String → String) (c : MigConn)
    (files : List Script) (now : Nat) :
    apply_migrations hash c files now =
      (⟨false, true, c.effects, c.ledger⟩, [],
        .error (.operationalError "cannot commit - no transaction is active")) := by
  simp [apply_migrations, ensure_migrations_table, exec_script_always_raises,
    runScriptStatements]

/-- C6: no invocation ever surfaces a SchemaDriftWarning, whatever
recorded-vs-current hash mismatches the state holds: `cmd_status` raises
OperationalError before listing anything (and its listing code contains no
hash comparison in any case), and `apply_migrations` raises before its drift
check, emitting no warning and applying nothing. -/
theorem c6_no_drift_warning_surfaced (hash : String → String) (c : MigConn)
    (files : List Script) (now : Nat) :
    cmd_status c files =
      (⟨false, true, c.effects, c.ledger⟩,
        .error (.operationalError "cannot commit - no transaction is active"))
    ∧ (apply_migrations hash c files now).2.1 = []
    ∧ (apply_migrations hash c files now).2.2 =
        .error (.operationalError "cannot commit - no transaction is active") := by
  refine ⟨?_, ?_, ?_⟩
  · simp [cmd_status, ensure_migrations_table, exec_script_always_raises,
      runScriptStatements]
  · simp [apply_migrations, ensure_migrations_table, exec_script_always_raises,
      runScriptStatements]
  · simp [apply_migrations, ensure_migrations_table, exec_script_always_raises,
      runScriptStatements]

/-! ### Timeline coalescing (src/viewmodels/tasks_viewmodel.py)

`_coalesce_updates` walks the newest-first row dicts, grouping consecutive
rows whose parsed timestamps lie within the window of the bucket head (or
whose raw timestamp equals the head's), and merges each bucket; timestamps
are modelled as already-parsed `Option Nat` seconds.  Python's `.lower()` and
`.strip()` are modelled character-wise. -/

/-- One row dict as returned by `SQLiteTaskUpdatesRepository` and consumed by
the viewmodel (nullable columns as options). -/
structure UpdateEntry where
  rid : Nat
  task_id : Nat
  updated_at_utc : Option Nat
  note : Option String
  reason : Option String
  old_phase_id : Option Nat
  new_phase_id : Option Nat
  old_priority_id : Option Nat
  new_priority_id : Option Nat
deriving DecidableEq

/-- Python `str.lower()` (ASCII behaviour). -/
def pyLower (s : String) : String := ⟨s.data.map Char.toLower⟩

/-- Python `str.strip()`: drop whitespace from both ends. -/
def pyStrip (s : String) : String :=
  ⟨((s.data.dropWhile Char.isWhitespace).reverse.dropWhile Char.isWhitespace).reverse⟩

/-- `(u.get("reason") or "update").lower()`. -/
def reasonFlag (u : UpdateEntry) : String := pyLower (u.reason.getD "update")

/-- `TasksViewModel._merge_reason`. -/
def merge_reason (flags : List String) (phase_changed prio_changed : Bool) : String :=
  if phase_changed && prio_changed then "update"
  else if phase_changed then "phase_change"
  else if prio_changed then "priority_change"
  else if flags.contains "create" then "create"
  else if flags.contains "note" then "note"
  else "update"

/-- The non-empty stripped notes of a bucket, newest first. -/
def bucketNotes (group : List UpdateEntry) : List String :=
  group.filterMap (fun u =>
    let n := pyStrip (u.note.getD "")
    if n = "" then none else some n)

/-- Order-preserving de-duplication (the `seen`/`uniq` loop of `flush`). -/
def dedupKeepFirst (seen : List String) : List String → List String
  | [] => []
  | n :: rest =>
    if n ∈ seen then dedupKeepFirst seen rest
    else n :: dedupKeepFirst (n :: seen) rest

/-- Whether an old/new pair is a real change: both present and different. -/
def changedB (o n : Option Nat) : Bool :=
  match o, n with
  | some a, some b => a ≠ b
  | _, _ => false

/-- `flush` of `TasksViewModel._coalesce_updates` applied to the nonempty
bucket `g0 :: rest` (newest first): start from the newest record, override
the note with the joined de-duplicated notes when any, take each old field
from the last (earliest) present value and each new field from the first
present value, null out non-changing pairs (phase first, then priority), and
re-derive the reason. -/
def mergeBucket (g0 : UpdateEntry) (rest : List UpdateEntry) : UpdateEntry :=
  let group := g0 :: rest
  let reasons := group.map reasonFlag
  let notes := bucketNotes group
  let merged1 :=
    if notes = [] then g0
    else { g0 with note := some (String.intercalate "\n" (dedupKeepFirst [] notes)) }
  let merged2 :=
    { merged1 with
      old_phase_id := (group.filterMap UpdateEntry.old_phase_id).getLast?
      new_phase_id := (group.filterMap UpdateEntry.new_phase_id).head?
      old_priority_id := (group.filterMap UpdateEntry.old_priority_id).getLast?
      new_priority_id := (group.filterMap UpdateEntry.new_priority_id).head? }
  let phase_changed := changedB merged2.old_phase_id merged2.new_phase_id
  let merged3 :=
    if phase_changed then merged2
    else { merged2 with old_phase_id := none, new_phase_id := none }
  let prio_changed := changedB merged3.old_priority_id merged3.new_priority_id
  let merged4 :=
    if prio_changed then merged3
    else { merged3 with old_priority_id := none, new_priority_id := none }
  { merged4 with reason := some (merge_reason reasons phase_changed prio_changed) }

/-- The bucket test of the loop: parsed timestamps within the window of the
bucket head's parsed timestamp, or raw timestamp equal to the head's. -/
def sameBucket (w : Nat) (prev : Option Nat) (bhead u : UpdateEntry) : Bool :=
  (match prev, u.updated_at_utc with
   | some p, some t => (if p ≥ t then p - t else t - p) ≤ w
   | _, _ => false)
  || (u.updated_at_utc = bhead.updated_at_utc)

/-- The grouping loop of `TasksViewModel._coalesce_updates`; `prev` is the
parsed timestamp fixed when the current bucket was opened. -/
def coalesceLoop (w : Nat) (bhead : UpdateEntry) (btail : List UpdateEntry)
    (prev : Option Nat) : List UpdateEntry → List UpdateEntry
  | [] => [mergeBucket bhead btail]
  | u :: rest =>
    if sameBucket w prev bhead u then
      coalesceLoop w bhead (btail ++ [u]) prev rest
    else
      mergeBucket bhead btail :: coalesceLoop w u [] u.updated_at_utc rest

/-- `TasksViewModel._coalesce_updates` over a newest-first sequence. -/
def coalesce_updates (updates : List UpdateEntry) (w : Nat) : List UpdateEntry :=
  match updates with
  | [] => []
  | u0 :: rest => coalesceLoop w u0 [] u0.updated_at_utc rest

/-- `TasksViewModel._normalize_changes`, per entry: null out non-changing
pairs and recompute the badge reason from the entry's own reason flag. -/
def normalizeEntry (u : UpdateEntry) : UpdateEntry :=
  let phase_changed := changedB u.old_phase_id u.new_phase_id
  let w1 :=
    if phase_changed then u
    else { u with old_phase_id := none, new_phase_id := none }
  let prio_changed := changedB u.old_priority_id u.new_priority_id
  let w2 :=
    if prio_changed then w1
    else { w1 with old_priority_id := none, new_priority_id := none }
  { w2 with reason := some (merge_reason [reasonFlag u] phase_changed prio_changed) }

/-- `TasksViewModel._normalize_changes`. -/
def normalize_changes (us : List UpdateEntry) : List UpdateEntry :=
  us.map normalizeEntry

/-- Scanning the reversed list for the first present value equals scanning
the original list for the last present value. -/
theorem head?_reverse_filterMap {α β : Type} (l : List α) (f : α → Option β) :
    (l.reverse.filterMap f).head? = (l.filterMap f).getLast? := by
  rw [List.filterMap_reverse, List.head?_reverse]

/-- C7: merging a bucket of newest-first records keeps the newest record's
timestamp, replaces the note by the newline-joined de-duplicated non-empty
notes (newest first) when any exist, sets each old field to the earliest
present value in the bucket and each new field to the latest (first) present
value, nulls out any pair that is equal or incomplete, and re-derives the
reason from the surviving pairs (phase_change if only the phase pair
survived, priority_change if only the priority pair, update if both, else a
surviving flag such as create or note); the normalization pass applies the
same nulling and reason re-derivation to each entry. -/
theorem c7_merge_and_normalize_semantics (g0 : UpdateEntry) (rest : List UpdateEntry)
    (u : UpdateEntry) :
    (let m := mergeBucket g0 rest
     let group := g0 :: rest
     let oEarly := (group.reverse.filterMap UpdateEntry.old_phase_id).head?
     let nLate := (group.filterMap UpdateEntry.new_phase_id).head?
     let pEarly := (group.reverse.filterMap UpdateEntry.old_priority_id).head?
     let qLate := (group.filterMap UpdateEntry.new_priority_id).head?
     m.updated_at_utc = g0.updated_at_utc
     ∧ m.note = (if bucketNotes group = [] then g0.note
                 else some (String.intercalate "\n" (dedupKeepFirst [] (bucketNotes group))))
     ∧ (if changedB oEarly nLate then m.old_phase_id = oEarly ∧ m.new_phase_id = nLate
        else m.old_phase_id = none ∧ m.new_phase_id = none)
     ∧ (if changedB pEarly qLate then m.old_priority_id = pEarly ∧ m.new_priority_id = qLate
        else m.old_priority_id = none ∧ m.new_priority_id = none)
     ∧ m.reason = some (merge_reason (group.map reasonFlag)
         (changedB oEarly nLate) (changedB pEarly qLate)))
    ∧ (let v := normalizeEntry u
       (if changedB u.old_phase_id u.new_phase_id then
          v.old_phase_id = u.old_phase_id ∧ v.new_phase_id = u.new_phase_id
        else v.old_phase_id = none ∧ v.new_phase_id = none)
       ∧ (if changedB u.old_priority_id u.new_priority_id then
            v.old_priority_id = u.old_priority_id ∧ v.new_priority_id = u.new_priority_id
          else v.old_priority_id = none ∧ v.new_priority_id = none)
       ∧ v.reason = some (merge_reason [reasonFlag u]
           (changedB u.old_phase_id u.new_phase_id)
           (changedB u.old_priority_id u.new_priority_id))) := by
  constructor
  · simp only [head?_reverse_filterMap, mergeBucket]
    split_ifs <;> simp_all
  · simp only [normalizeEntry]
    split_ifs <;> simp_all

/-- Joining a single note with newlines gives the note back. -/
theorem intercalate_singleton (s : String) : String.intercalate "\n" [s] = s := rfl

/-- A concrete create-style record: old and new phase equal (1), old and new
priority equal (2) — the shape `create_task` mirrors for a task created with
the defaults. -/
def rec1 : UpdateEntry := ⟨1, 1, some 100, none, some "create", some 1, some 1, some 2, some 2⟩

/-- C8 counterexample: coalescing the single-record sequence `[rec1]` does
not return it unchanged: the equal old/new phase and priority pairs are
nulled out, so the output record differs from the input. -/
theorem c8_single_equal_pair_not_identity :
    coalesce_updates [rec1] 2 =
      [⟨1, 1, some 100, none, some "create", none, none, none, none⟩]
    ∧ coalesce_updates [rec1] 2 ≠ [rec1] := by
  decide

/-- An old/new pair survives a singleton merge unchanged exactly when it is
either wholly absent or a real change. -/
def pairKeeps (o n : Option Nat) : Bool :=
  (o.isNone && n.isNone) || changedB o n

/-- Merging the singleton bucket of a record whose pairs are absent or real
changes, whose note is already stripped, and whose reason equals its own
re-derived reason, gives the record back. -/
theorem mergeBucket_single_eq (u : UpdateEntry)
    (hp : pairKeeps u.old_phase_id u.new_phase_id = true)
    (hq : pairKeeps u.old_priority_id u.new_priority_id = true)
    (hn : pyStrip (u.note.getD "") = u.note.getD "")
    (hr : u.reason = some (merge_reason [reasonFlag u]
        (changedB u.old_phase_id u.new_phase_id)
        (changedB u.old_priority_id u.new_priority_id))) :
    mergeBucket u [] = u := by
  obtain ⟨rid, tid, ts, note, reason, op, np, opr, npr⟩ := u
  have hr' := hr.symm
  clear hr
  unfold mergeBucket bucketNotes
  rcases op with _ | a <;> rcases np with _ | b <;>
    rcases opr with _ | c <;> rcases npr with _ | d <;>
    rcases note with _ | s
  all_goals
    simp_all [pairKeeps, changedB, reasonFlag, dedupKeepFirst, intercalate_singleton]
  all_goals
    split_ifs <;> simp_all [dedupKeepFirst, intercalate_singleton]

/-- C8 amended: coalescing a single-record sequence returns the record
unchanged exactly on records already in normal form — each old/new pair
absent or a real change, note absent or already stripped, reason equal to the
re-derived reason; otherwise (e.g. an equal old/new pair, as in the
counterexample) the transform nulls pairs and rewrites the reason. -/
theorem c8_amended_single_identity (u : UpdateEntry) (w : Nat)
    (hp : pairKeeps u.old_phase_id u.new_phase_id = true)
    (hq : pairKeeps u.old_priority_id u.new_priority_id = true)
    (hn : pyStrip (u.note.getD "") = u.note.getD "")
    (hr : u.reason = some (merge_reason [reasonFlag u]
        (changedB u.old_phase_id u.new_phase_id)
        (changedB u.old_priority_id u.new_priority_id))) :
    coalesce_updates [u] w = [u] := by
  have h : coalesce_updates [u] w = [mergeBucket u []] := rfl
  rw [h, mergeBucket_single_eq u hp hq hn hr]

/-- Witness for the C8 amended theorem at a concrete record (a real phase
change Open → In Progress with a stripped note). -/
theorem c8_amended_single_identity_witness :
    coalesce_updates [⟨2, 1, some 50, some "started", some "phase_change",
        some 1, some 2, none, none⟩] 2 =
      [⟨2, 1, some 50, some "started", some "phase_change",
        some 1, some 2, none, none⟩] :=
  c8_amended_single_identity
    ⟨2, 1, some 50, some "started", some "phase_change", some 1, some 2, none, none⟩ 2
    (by decide) (by decide) (by decide) (by decide)

end TrackerZ
